import Mathlib

/-!
# Verification of the CLOUD v1 recoil-compensation core (`CLOUDAIV1RECOIL.py`)

Shallow embedding of the actuation core of the repository:

* `distribute_movement` — the movement scheduler (`distribute_movement` in the
  source).  Python `//` and `%` are floor division and floor modulo; the
  function only reaches the division in its `else` branch where `steps > 0`,
  and for a positive divisor floor division/modulo coincide with Lean's
  Euclidean `Int./` and `Int.%`, so the embedding uses the latter.
* `is_recoil_active`, `tick_sends` — the per-tick activation predicate and the
  list of `(dx, dy)` send calls issued by one tick of `CloudRecoil.recoil_loop`.
* `MakcuController.move`, `MakcuController.connect` — the serial backend.
  External effects (whether the serial write raises, what each handshake
  candidate answers) are passed in as explicit parameters.
* `Config.load` — the startup merge of the stored JSON document over the
  hard-coded defaults (`{**DEFAULTS, **json.load(f)}`).
-/

/-- Embeds `distribute_movement(total_pixels, steps)` from the source:

```
if steps <= 0: return []
base_move = total_pixels // steps
remainder = total_pixels % steps
moves = [base_move] * steps
for i in range(remainder): moves[i] += 1
return moves
```

With `steps > 0` we have `0 ≤ remainder < steps`, so the Python loop adds one
to exactly the first `remainder` entries; the list is therefore
`fun i => base_move + (1 if i < remainder else 0)` pointwise. -/
def distribute_movement (total_pixels steps : Int) : List Int :=
  if steps ≤ 0 then
    []
  else
    let base_move := total_pixels / steps
    let remainder := total_pixels % steps
    List.ofFn (fun i : Fin steps.toNat =>
      base_move + (if ((i : Nat) : Int) < remainder then 1 else 0))

theorem distribute_movement_of_pos (total steps : Int) (h : 0 < steps) :
    distribute_movement total steps =
      List.ofFn (fun i : Fin steps.toNat =>
        total / steps + (if ((i : Nat) : Int) < total % steps then 1 else 0)) := by
  rw [distribute_movement, if_neg (not_le.mpr h)]

theorem distribute_movement_length (total steps : Int) (h : 0 < steps) :
    (distribute_movement total steps).length = steps.toNat := by
  rw [distribute_movement_of_pos total steps h, List.length_ofFn]

theorem distribute_movement_get (total steps : Int) (i : Nat)
    (hi : i < (distribute_movement total steps).length) :
    (distribute_movement total steps).get ⟨i, hi⟩ =
      total / steps + (if (i : Int) < total % steps then 1 else 0) := by
  have h : 0 < steps := by
    by_contra hle
    rw [distribute_movement, if_pos (by omega)] at hi
    simp at hi
  rw [List.get_eq_getElem]
  simp only [distribute_movement_of_pos total steps h] at hi ⊢
  rw [List.getElem_ofFn]

theorem distribute_movement_sum (total steps : Int) (h : 0 < steps) :
    (distribute_movement total steps).sum = total := by
  have hne : steps ≠ 0 := ne_of_gt h
  have hr0 : 0 ≤ total % steps := Int.emod_nonneg total hne
  have hrlt : total % steps < steps := Int.emod_lt_of_pos total h
  rw [distribute_movement_of_pos total steps h, Fin.sum_ofFn, Finset.sum_add_distrib,
    Finset.sum_const, Finset.card_univ, Fintype.card_fin]
  have hsum : (∑ i : Fin steps.toNat,
      if ((i : Nat) : Int) < total % steps then (1 : Int) else 0)
      = (((total % steps).toNat : Nat) : Int) := by
    rw [← Finset.sum_range
      (fun j : Nat => if ((j : Nat) : Int) < total % steps then (1 : Int) else 0)]
    rw [← Finset.sum_filter]
    have hfil : (Finset.range steps.toNat).filter
        (fun j : Nat => ((j : Nat) : Int) < total % steps)
        = Finset.range (total % steps).toNat := by
      ext j
      simp only [Finset.mem_filter, Finset.mem_range]
      omega
    rw [hfil, Finset.sum_const, Finset.card_range]
    simp
  rw [hsum]
  have h1 : ((steps.toNat : Nat) : Int) = steps := Int.toNat_of_nonneg (le_of_lt h)
  have h2 : (((total % steps).toNat : Nat) : Int) = total % steps :=
    Int.toNat_of_nonneg hr0
  rw [nsmul_eq_mul, h1, h2]
  have := Int.ediv_add_emod total steps
  linarith

/-- C1: `distribute(total, steps)` returns `[]` when `steps ≤ 0`, and otherwise
a sequence of length exactly `steps` whose `i`-th entry is `total // steps`
plus one extra unit for the first `total % steps` indices, whose sum is
`total`; in particular `distribute(10, 3) = [4, 3, 3]`,
`distribute(0, 5) = [0, 0, 0, 0, 0]` and `distribute(7, 1) = [7]`.
(For `steps > 0` Python floor division `//`/`%` coincides with `Int./`/`Int.%`.) -/
theorem distribute_movement_spec (total steps : Int) :
    (steps ≤ 0 → distribute_movement total steps = []) ∧
    (0 < steps →
      (distribute_movement total steps).length = steps.toNat ∧
      (distribute_movement total steps).sum = total ∧
      ∀ i : Nat, ∀ hi : i < (distribute_movement total steps).length,
        (distribute_movement total steps).get ⟨i, hi⟩ =
          total / steps + (if (i : Int) < total % steps then 1 else 0)) ∧
    distribute_movement 10 3 = [4, 3, 3] ∧
    distribute_movement 0 5 = [0, 0, 0, 0, 0] ∧
    distribute_movement 7 1 = [7] := by
  refine ⟨?_, ?_, by decide, by decide, by decide⟩
  · intro hle
    rw [distribute_movement, if_pos hle]
  · intro h
    exact ⟨distribute_movement_length total steps h,
      distribute_movement_sum total steps h,
      fun i hi => distribute_movement_get total steps i hi⟩

/-- Witness for C1 at `total = 10`, `steps = 3`. -/
theorem distribute_movement_spec_witness :
    (distribute_movement 10 3).sum = 10 ∧ (distribute_movement 10 3).length = 3 :=
  ⟨((distribute_movement_spec 10 3).2.1 (by decide)).2.1,
   ((distribute_movement_spec 10 3).2.1 (by decide)).1⟩

/-- The tunable parameters consumed by one tick of `CloudRecoil.recoil_loop`
(the actuation-relevant subset of the shared configuration dictionary). -/
structure RecoilConfig where
  recoil_compensation : Bool
  bloom_reduction : Bool
  require_ads : Bool
  recoil_strength : Int
  smoothing : Int
  bloom_intensity : Int
  use_makcu : Bool

/-- `is_recoil_active` from `recoil_loop`:

```
is_recoil_active = (lmb_pressed and
                    config['recoil_compensation'] and
                    (not config['require_ads'] or ads_pressed))
```
-/
def is_recoil_active (config : RecoilConfig) (lmb_pressed ads_pressed : Bool) : Bool :=
  lmb_pressed && config.recoil_compensation && (!config.require_ads || ads_pressed)

/-- The list of `(dx, dy)` pairs handed to the selected backend during one tick
of `recoil_loop`.  `bloom_rand` stands for the value of
`random.randint(-bloom_intensity, bloom_intensity)` drawn on this tick; it is
only consulted when `bloom_reduction` is set, exactly as in the source.  The
source iterates `for i in range(smoothing)` reading `x_moves[i]` and
`y_moves[i]`; both plans have length `smoothing`, so that iteration is the
elementwise zip of the two plans. -/
def tick_sends (config : RecoilConfig) (lmb_pressed ads_pressed : Bool)
    (bloom_rand : Int) : List (Int × Int) :=
  if is_recoil_active config lmb_pressed ads_pressed then
    let smoothing := max 1 config.smoothing
    let dy_total := config.recoil_strength
    let dx_total := if config.bloom_reduction then bloom_rand else 0
    let y_moves := distribute_movement dy_total smoothing
    let x_moves := distribute_movement dx_total smoothing
    x_moves.zip y_moves
  else
    []

/-- C2: a tick performs compensation movement iff
`recoil_compensation AND primary_pressed AND (NOT require_ads OR secondary_pressed)`,
for all 8 combinations of the three relevant booleans (together with the
secondary button state). -/
theorem is_recoil_active_predicate (config : RecoilConfig)
    (lmb_pressed ads_pressed : Bool) :
    is_recoil_active config lmb_pressed ads_pressed =
      (config.recoil_compensation && lmb_pressed &&
        (!config.require_ads || ads_pressed)) := by
  rcases config with ⟨rc, br, ra, rs, sm, bi, um⟩
  simp only [is_recoil_active]
  cases rc <;> cases ra <;> cases lmb_pressed <;> cases ads_pressed <;> rfl

/-- C3: with `recoil_compensation = true`, `require_ads = false`,
`recoil_strength = 10`, `smoothing = 5`, `bloom_reduction = false` and the
primary button held, one active tick issues exactly 5 backend send calls, the
`dx` values sum to 0, the `dy` values sum to 10, and every `dy` equals 2 (in
particular each is non-negative) — for any `bloom_intensity`, `use_makcu`,
secondary-button state and drawn random value. -/
theorem tick_sends_end_to_end (bi : Int) (um : Bool) (ads_pressed : Bool)
    (bloom_rand : Int) :
    tick_sends ⟨true, false, false, 10, 5, bi, um⟩ true ads_pressed bloom_rand =
      [(0, 2), (0, 2), (0, 2), (0, 2), (0, 2)] ∧
    (tick_sends ⟨true, false, false, 10, 5, bi, um⟩ true ads_pressed bloom_rand).length = 5 ∧
    ((tick_sends ⟨true, false, false, 10, 5, bi, um⟩ true ads_pressed bloom_rand).map
      Prod.fst).sum = 0 ∧
    ((tick_sends ⟨true, false, false, 10, 5, bi, um⟩ true ads_pressed bloom_rand).map
      Prod.snd).sum = 10 ∧
    ∀ p ∈ tick_sends ⟨true, false, false, 10, 5, bi, um⟩ true ads_pressed bloom_rand,
      p.2 = 2 ∧ 0 ≤ p.2 := by
  have h : tick_sends ⟨true, false, false, 10, 5, bi, um⟩ true ads_pressed bloom_rand =
      [(0, 2), (0, 2), (0, 2), (0, 2), (0, 2)] := by
    rw [tick_sends]
    simp only [show is_recoil_active ⟨true, false, false, 10, 5, bi, um⟩ true ads_pressed
        = true from rfl,
      Bool.false_eq_true, if_false, ite_false, if_true, ite_true]
    decide
  rw [h]
  refine ⟨rfl, rfl, by decide, by decide, by decide⟩

/-- C9: on every active tick the step count the loop actually uses is
`max(1, smoothing)`, so both movement plans have that many entries and the
tick issues at least one sub-move, even when the shared configuration holds
`smoothing ≤ 0`. -/
theorem tick_step_count_clamped (config : RecoilConfig) (lmb_pressed ads_pressed : Bool)
    (bloom_rand : Int) (h : is_recoil_active config lmb_pressed ads_pressed = true) :
    1 ≤ max 1 config.smoothing ∧
    (distribute_movement config.recoil_strength (max 1 config.smoothing)).length
      = (max 1 config.smoothing).toNat ∧
    (tick_sends config lmb_pressed ads_pressed bloom_rand).length
      = (max 1 config.smoothing).toNat ∧
    1 ≤ (tick_sends config lmb_pressed ads_pressed bloom_rand).length := by
  have h1 : (0 : Int) < max 1 config.smoothing :=
    lt_of_lt_of_le zero_lt_one (le_max_left _ _)
  have hlen_y := distribute_movement_length config.recoil_strength
    (max 1 config.smoothing) h1
  have hlen_x := distribute_movement_length
    (if config.bloom_reduction then bloom_rand else 0) (max 1 config.smoothing) h1
  have hts : tick_sends config lmb_pressed ads_pressed bloom_rand =
      (distribute_movement (if config.bloom_reduction then bloom_rand else 0)
          (max 1 config.smoothing)).zip
        (distribute_movement config.recoil_strength (max 1 config.smoothing)) := by
    rw [tick_sends, if_pos h]
  have hlen : (tick_sends config lmb_pressed ads_pressed bloom_rand).length
      = (max 1 config.smoothing).toNat := by
    rw [hts, List.length_zip, hlen_x, hlen_y, min_self]
  refine ⟨le_max_left _ _, hlen_y, hlen, ?_⟩
  rw [hlen]
  omega

/-- Witness for C9 at `smoothing = -5`: the clamp still drives one sub-move. -/
theorem tick_step_count_clamped_witness :
    is_recoil_active ⟨true, false, false, 10, -5, 0, false⟩ true false = true ∧
    1 ≤ (tick_sends ⟨true, false, false, 10, -5, 0, false⟩ true false 0).length :=
  ⟨rfl, (tick_step_count_clamped ⟨true, false, false, 10, -5, 0, false⟩
    true false 0 rfl).2.2.2⟩

/-- Connection-relevant state of `MakcuController`: whether `self.serial` holds
an object, the `connected` flag, and `port_name`. -/
structure MakcuController where
  has_serial : Bool
  connected : Bool
  port_name : Option Nat

/-- `MakcuController.move(x, y)`:

```
if not self.connected or not self.serial: return False
if x == 0 and y == 0: return True
try: self.serial.write(command); return True
except (OSError, serial.SerialException):
    self.connected = False; return False
```

`write_fails` models the serial write raising `OSError`/`SerialException`.
The result is `(updated controller, returned boolean, whether a write to the
serial channel was attempted)`; the failure path performs no retry — there is
exactly one write attempt per call. -/
def MakcuController.move (st : MakcuController) (write_fails : Bool) (x y : Int) :
    MakcuController × Bool × Bool :=
  if !st.connected || !st.has_serial then (st, false, false)
  else if x == 0 && y == 0 then (st, true, false)
  else if write_fails then ({ st with connected := false }, false, true)
  else (st, true, true)

/-- The per-tick backend selection in `recoil_loop`:

```
use_makcu = (config.get('use_makcu', False) and
             self.mouse_controller and self.mouse_controller.connected)
```

`controller = none` models `self.mouse_controller is None`. -/
def backend_selects_makcu (config : RecoilConfig)
    (controller : Option MakcuController) : Bool :=
  config.use_makcu &&
    (match controller with
     | none => false
     | some st => st.connected)

/-- C5: when a serial write fails with an I/O error while connected (serial
object present and the command non-zero, so the write is reached), `move`
marks the controller disconnected and returns failure after its single write
attempt, and the loop's backend selection — which requires `use_makcu` AND the
`connected` flag — then refuses the hardware backend for every configuration,
falling back to the synthetic-input branch. -/
theorem makcu_write_failure_falls_back (st : MakcuController) (x y : Int)
    (hc : st.connected = true) (hs : st.has_serial = true)
    (hxy : ¬(x = 0 ∧ y = 0)) :
    (st.move true x y).1.connected = false ∧
    (st.move true x y).2.1 = false ∧
    (st.move true x y).2.2 = true ∧
    ∀ config : RecoilConfig,
      backend_selects_makcu config (some (st.move true x y).1) = false := by
  have hb : (x == 0 && y == 0) = false := by
    by_cases h0 : x = 0
    · by_cases h1 : y = 0
      · exact absurd ⟨h0, h1⟩ hxy
      · simp [h1]
    · simp [h0]
  simp [MakcuController.move, hc, hs, hb, backend_selects_makcu]

/-- Witness for C5: a connected controller whose write of `(1, 2)` fails. -/
theorem makcu_write_failure_falls_back_witness :
    ((⟨true, true, some 3⟩ : MakcuController).move true 1 2).1.connected = false ∧
    ((⟨true, true, some 3⟩ : MakcuController).move true 1 2).2.1 = false :=
  ⟨(makcu_write_failure_falls_back ⟨true, true, some 3⟩ 1 2 rfl rfl (by decide)).1,
   (makcu_write_failure_falls_back ⟨true, true, some 3⟩ 1 2 rfl rfl (by decide)).2.1⟩

/-- C6: a serial-backend send of `(0, 0)` never attempts a write to the serial
channel, and — provided the backend is connected with a serial object present,
the precondition made explicit by C10 — returns success with the state
unchanged. -/
theorem makcu_move_zero_noop (st : MakcuController) (write_fails : Bool) :
    (st.move write_fails 0 0).2.2 = false ∧
    (st.connected = true → st.has_serial = true →
      st.move write_fails 0 0 = (st, true, false)) := by
  rcases st with ⟨s, c, p⟩
  cases s <;> cases c <;> cases write_fails <;> simp [MakcuController.move]

/-- Witness for C6 on a connected controller. -/
theorem makcu_move_zero_noop_witness :
    ((⟨true, true, some 0⟩ : MakcuController).move false 0 0)
      = (⟨true, true, some 0⟩, true, false) :=
  (makcu_move_zero_noop ⟨true, true, some 0⟩ false).2 rfl rfl

/-- C10: for every `(x, y)`, including `(0, 0)`, `move` returns failure without
attempting any write and without changing state whenever the controller is not
connected or has no serial object. -/
theorem makcu_move_disconnected_fails (st : MakcuController) (write_fails : Bool)
    (x y : Int) (h : st.connected = false ∨ st.has_serial = false) :
    st.move write_fails x y = (st, false, false) := by
  rcases st with ⟨s, c, p⟩
  rcases h with h | h <;> subst h <;> simp [MakcuController.move]

/-- Witness for C10 at `(0, 0)` on a disconnected controller. -/
theorem makcu_move_disconnected_fails_witness :
    (⟨false, false, none⟩ : MakcuController).move false 0 0
      = (⟨false, false, none⟩, false, false) :=
  makcu_move_disconnected_fails ⟨false, false, none⟩ false 0 0 (Or.inl rfl)

/-- C4: for every negative `total` and `steps ≥ 1`, `distribute` follows
Python's floor-division semantics: the base move is `Int.fdiv total steps`
(truncation toward negative infinity) and the remainder `Int.fmod total steps`
is the matching non-negative modulo, so the remainder distribution is
deterministic and the outputs still sum to `total`;
e.g. `distribute(-7, 3) = [-2, -2, -3]`.  (Python computes `-7 // 3 = -3` and
`-7 % 3 = 2`; for `steps > 0` these agree with Lean's Euclidean `Int./` and
`Int.%` used in the embedding, which the proof makes explicit via
`Int.fdiv_eq_ediv` / `Int.fmod_eq_emod`.) -/
theorem distribute_movement_negative_total (total steps : Int)
    (hneg : total < 0) (hsteps : 1 ≤ steps) :
    (distribute_movement total steps).sum = total ∧
    0 ≤ Int.fmod total steps ∧ Int.fmod total steps < steps ∧
    (∀ i : Nat, ∀ hi : i < (distribute_movement total steps).length,
      (distribute_movement total steps).get ⟨i, hi⟩ =
        Int.fdiv total steps +
          (if (i : Int) < Int.fmod total steps then 1 else 0)) ∧
    distribute_movement (-7) 3 = [-2, -2, -3] := by
  have h : (0 : Int) < steps := by omega
  have hd : Int.fdiv total steps = total / steps := Int.fdiv_eq_ediv total (le_of_lt h)
  have hm : Int.fmod total steps = total % steps := Int.fmod_eq_emod total (le_of_lt h)
  refine ⟨distribute_movement_sum total steps h, ?_, ?_, ?_, by decide⟩
  · rw [hm]
    exact Int.emod_nonneg total (ne_of_gt h)
  · rw [hm]
    exact Int.emod_lt_of_pos total h
  · intro i hi
    rw [hd, hm]
    exact distribute_movement_get total steps i hi

/-- Witness for C4 at `total = -7`, `steps = 3`. -/
theorem distribute_movement_negative_total_witness :
    (distribute_movement (-7) 3).sum = -7 ∧
    distribute_movement (-7) 3 = [-2, -2, -3] :=
  ⟨(distribute_movement_negative_total (-7) 3 (by decide) (by decide)).1,
   (distribute_movement_negative_total (-7) 3 (by decide) (by decide)).2.2.2.2⟩

/-- Outcome of attempting one `(port, profile)` candidate inside `connect()`:
the attempt either raises an I/O exception (`OSError`/`serial.SerialException`
anywhere while opening the port or handshaking), or yields the lower-cased
space-joined handshake response collected by `_read_response`. -/
inductive CandidateOutcome where
  | throws
  | responds (response : List Char)

/-- A device profile from `MakcuController.DEVICE_PROFILES`. -/
structure DeviceProfile where
  HANDSHAKE_COMMAND : String
  HANDSHAKE_RESPONSE_KEYWORDS : List (List Char)
  BAUDRATE_HIGH : Nat
  INIT_SEQUENCE : List Nat
  INIT_COMMAND : String

def makcu_profile : DeviceProfile where
  HANDSHAKE_COMMAND := "km.version()\r\n"
  HANDSHAKE_RESPONSE_KEYWORDS := ["km.makcu".data, "km".data]
  BAUDRATE_HIGH := 4000000
  INIT_SEQUENCE := [0xDE, 0xAD, 0x05, 0x00, 0xA5, 0x00, 0x09, 0x3D, 0x00]
  INIT_COMMAND := "km.buttons(1)\r\n"

def otherbox_profile : DeviceProfile where
  HANDSHAKE_COMMAND := "box.version()\r\n"
  HANDSHAKE_RESPONSE_KEYWORDS := ["otherbox".data]
  BAUDRATE_HIGH := 115200
  INIT_SEQUENCE := []
  INIT_COMMAND := ""

/-- The profile catalog, in source (insertion) order. -/
def DEVICE_PROFILES : List (String × DeviceProfile) :=
  [("makcu", makcu_profile), ("otherbox", otherbox_profile)]

/-- Python's substring test `needle in hay` on lower-cased text. -/
def containsSubstr (needle : List Char) : List Char → Bool
  | [] => needle.isEmpty
  | c :: rest => needle.isPrefixOf (c :: rest) || containsSubstr needle rest

/-- `any(keyword in response for keyword in profile["HANDSHAKE_RESPONSE_KEYWORDS"])`. -/
def profileMatches (profile : DeviceProfile) (response : List Char) : Bool :=
  profile.HANDSHAKE_RESPONSE_KEYWORDS.any (fun keyword => containsSubstr keyword response)

/-- The inner `for profile_name, profile in self.DEVICE_PROFILES.items()` loop
of `connect()` on one port: candidates are consulted in catalog order, a raised
exception skips to the next candidate, a response is accepted iff some keyword
occurs in it.  `j` numbers the candidates tried on this port so that `env` can
answer each attempt independently. -/
def findProfileIdx (env : Nat → Nat → CandidateOutcome) (port : Nat) :
    Nat → List (String × DeviceProfile) → Option Nat
  | _, [] => none
  | j, (_, profile) :: rest =>
    match env port j with
    | CandidateOutcome.throws => findProfileIdx env port (j + 1) rest
    | CandidateOutcome.responds response =>
      if profileMatches profile response then some j
      else findProfileIdx env port (j + 1) rest

/-- The outer `for port in ports` loop of `connect()`: first accepted
`(port, profile index)` candidate, if any. -/
def connectSearch (env : Nat → Nat → CandidateOutcome) :
    List Nat → Option (Nat × Nat)
  | [] => none
  | port :: rest =>
    match findProfileIdx env port 0 DEVICE_PROFILES with
    | some j => some (port, j)
    | none => connectSearch env rest

/-- `MakcuController.connect()`: `close()` first resets the observable state
(`connected = False`, `port_name = None`); a successful handshake finalizes the
connection (`connected = True`, `port_name` set) and returns `True`; exhausting
all `ports × profiles` returns `False` with the state still reset.  The result
is `(returned bool, connected flag, port_name)`. -/
def MakcuController.connect (env : Nat → Nat → CandidateOutcome)
    (ports : List Nat) : Bool × Bool × Option Nat :=
  match connectSearch env ports with
  | some (port, _) => (true, true, some port)
  | none => (false, false, none)

theorem findProfileIdx_eq_none (env : Nat → Nat → CandidateOutcome) (port : Nat)
    (ps : List (String × DeviceProfile)) (j : Nat)
    (h : ∀ k r, env port k = CandidateOutcome.responds r →
      ∀ p ∈ ps, profileMatches p.2 r = false) :
    findProfileIdx env port j ps = none := by
  induction ps generalizing j with
  | nil => rfl
  | cons hd tl ih =>
    obtain ⟨nm, profile⟩ := hd
    have hweak : ∀ k r, env port k = CandidateOutcome.responds r →
        ∀ p ∈ tl, profileMatches p.2 r = false :=
      fun k r hr p hp => h k r hr p (List.mem_cons_of_mem _ hp)
    rw [findProfileIdx]
    cases henv : env port j with
    | throws =>
      exact ih (j + 1) hweak
    | responds r =>
      have hm : profileMatches profile r = false :=
        h j r henv (nm, profile) (List.mem_cons_self _ _)
      show (if profileMatches profile r = true then some j
        else findProfileIdx env port (j + 1) tl) = none
      rw [hm]
      simp only [Bool.false_eq_true, if_false, ite_false]
      exact ih (j + 1) hweak

theorem connectSearch_eq_none (env : Nat → Nat → CandidateOutcome)
    (ports : List Nat)
    (h : ∀ port ∈ ports, ∀ j r, env port j = CandidateOutcome.responds r →
      ∀ p ∈ DEVICE_PROFILES, profileMatches p.2 r = false) :
    connectSearch env ports = none := by
  induction ports with
  | nil => rfl
  | cons port rest ih =>
    have hfind : findProfileIdx env port 0 DEVICE_PROFILES = none :=
      findProfileIdx_eq_none env port DEVICE_PROFILES 0
        (fun k r hr p hp => h port (List.mem_cons_self _ _) k r hr p hp)
    rw [connectSearch, hfind]
    exact ih (fun q hq => h q (List.mem_cons_of_mem _ hq))

/-- C7: `connect()` returns `False` and leaves the state disconnected with no
port recorded when no enumerated `(port, profile)` candidate produces a
handshake response containing an accepted keyword; an I/O exception raised
while opening or handshaking a candidate (the `throws` outcome) is swallowed
and the search continues with the next candidate, so only total exhaustion of
`ports × profiles` yields the `False` result. -/
theorem connect_exhaustion (env : Nat → Nat → CandidateOutcome) (ports : List Nat)
    (h : ∀ port ∈ ports, ∀ j r, env port j = CandidateOutcome.responds r →
      ∀ p ∈ DEVICE_PROFILES, profileMatches p.2 r = false) :
    MakcuController.connect env ports = (false, false, none) := by
  rw [MakcuController.connect, connectSearch_eq_none env ports h]

/-- Witness for C7: two ports whose every candidate answers `hello`, which no
profile keyword matches. -/
theorem connect_exhaustion_witness :
    MakcuController.connect
      (fun _ _ => CandidateOutcome.responds "hello".data) [0, 7]
      = (false, false, none) := by
  refine connect_exhaustion _ [0, 7] ?_
  intro port hport j r hr p hpmem
  simp only [DEVICE_PROFILES, List.mem_cons, List.not_mem_nil, or_false] at hpmem
  have hr2 : CandidateOutcome.responds "hello".data = CandidateOutcome.responds r := hr
  injection hr2 with hdata
  subst hdata
  rcases hpmem with rfl | rfl
  · decide
  · decide

/-- A JSON scalar as it appears in the configuration document. -/
inductive JVal where
  | b (x : Bool)
  | i (n : Int)
  | s (v : String)
deriving DecidableEq

/-- `Config.DEFAULTS` from the source, in source order. -/
def DEFAULTS : List (String × JVal) :=
  [("recoil_compensation", JVal.b true),
   ("bloom_reduction", JVal.b false),
   ("require_ads", JVal.b true),
   ("show_crosshair", JVal.b false),
   ("recoil_strength", JVal.i 11),
   ("smoothing", JVal.i 3),
   ("bloom_intensity", JVal.i 2),
   ("crosshair_color", JVal.s "#BF40BF"),
   ("crosshair_size", JVal.i 5),
   ("crosshair_thickness", JVal.i 2),
   ("use_makcu", JVal.b false)]

/-- What `Config.load` finds on disk: no file, an unreadable/corrupt file
(`json.JSONDecodeError` / `IOError`), or a parsed flat document. -/
inductive StoredDoc where
  | missing
  | corrupt
  | doc (entries : List (String × JVal))

/-- Python `{**a, **b}` on flat dictionaries (keys of `a` in order with values
overridden by `b`, then the keys of `b` not in `a`, in order), for association
lists whose keys are unique. -/
def dictMerge (a b : List (String × JVal)) : List (String × JVal) :=
  a.map (fun kv => (kv.1, (List.lookup kv.1 b).getD kv.2)) ++
    b.filter (fun kv => (List.lookup kv.1 a).isNone)

/-- `Config.load()`: a readable document merges over the defaults via
`{**cls.DEFAULTS, **json.load(f)}`; a missing or corrupt file yields
`cls.DEFAULTS.copy()`. -/
def Config.load (d : StoredDoc) : List (String × JVal) :=
  match d with
  | StoredDoc.missing => DEFAULTS
  | StoredDoc.corrupt => DEFAULTS
  | StoredDoc.doc entries => dictMerge DEFAULTS entries

/-- C8 counterexample: loading a document holding only the unknown key
`"frobnicate"` does not ignore that key — the merged result still contains it,
and therefore differs from the result of loading an empty document. -/
theorem config_load_unknown_key_retained :
    List.lookup "frobnicate"
        (Config.load (StoredDoc.doc [("frobnicate", JVal.i 1)]))
      = some (JVal.i 1) ∧
    Config.load (StoredDoc.doc [("frobnicate", JVal.i 1)])
      ≠ Config.load (StoredDoc.doc []) := by
  decide

/-- C8 (amended): loading merges the stored document over the hard-coded
defaults.  A document missing `smoothing` yields `smoothing = 3` (its
default); for every known key the merged value is the stored one when present
and the default otherwise — so an extra unknown key leaves all known keys
intact, though the unknown key itself is carried through into the merged
result rather than dropped (see the counterexample); a missing or corrupt
document yields the defaults wholesale. -/
theorem config_load_merges_over_defaults (d : List (String × JVal)) :
    (List.lookup "smoothing" d = none →
      List.lookup "smoothing" (Config.load (StoredDoc.doc d)) = some (JVal.i 3)) ∧
    List.lookup "recoil_compensation" (Config.load (StoredDoc.doc d))
      = some ((List.lookup "recoil_compensation" d).getD (JVal.b true)) ∧
    List.lookup "bloom_reduction" (Config.load (StoredDoc.doc d))
      = some ((List.lookup "bloom_reduction" d).getD (JVal.b false)) ∧
    List.lookup "require_ads" (Config.load (StoredDoc.doc d))
      = some ((List.lookup "require_ads" d).getD (JVal.b true)) ∧
    List.lookup "show_crosshair" (Config.load (StoredDoc.doc d))
      = some ((List.lookup "show_crosshair" d).getD (JVal.b false)) ∧
    List.lookup "recoil_strength" (Config.load (StoredDoc.doc d))
      = some ((List.lookup "recoil_strength" d).getD (JVal.i 11)) ∧
    List.lookup "smoothing" (Config.load (StoredDoc.doc d))
      = some ((List.lookup "smoothing" d).getD (JVal.i 3)) ∧
    List.lookup "bloom_intensity" (Config.load (StoredDoc.doc d))
      = some ((List.lookup "bloom_intensity" d).getD (JVal.i 2)) ∧
    List.lookup "crosshair_color" (Config.load (StoredDoc.doc d))
      = some ((List.lookup "crosshair_color" d).getD (JVal.s "#BF40BF")) ∧
    List.lookup "crosshair_size" (Config.load (StoredDoc.doc d))
      = some ((List.lookup "crosshair_size" d).getD (JVal.i 5)) ∧
    List.lookup "crosshair_thickness" (Config.load (StoredDoc.doc d))
      = some ((List.lookup "crosshair_thickness" d).getD (JVal.i 2)) ∧
    List.lookup "use_makcu" (Config.load (StoredDoc.doc d))
      = some ((List.lookup "use_makcu" d).getD (JVal.b false)) ∧
    Config.load StoredDoc.missing = DEFAULTS ∧
    Config.load StoredDoc.corrupt = DEFAULTS := by
  refine ⟨?_, rfl, rfl, rfl, rfl, rfl, rfl, rfl, rfl, rfl, rfl, rfl, rfl, rfl⟩
  intro hnone
  have hval : List.lookup "smoothing" (Config.load (StoredDoc.doc d))
      = some ((List.lookup "smoothing" d).getD (JVal.i 3)) := rfl
  rw [hval, hnone]
  rfl

/-- Witness for C8 at a document that stores `recoil_strength` but no
`smoothing`. -/
theorem config_load_merges_over_defaults_witness :
    List.lookup "smoothing"
        (Config.load (StoredDoc.doc [("recoil_strength", JVal.i 20)]))
      = some (JVal.i 3) :=
  (config_load_merges_over_defaults [("recoil_strength", JVal.i 20)]).1 (by decide)
